import Mathlib

/-!
Verification development for the NewsAnalyserApp repository (a Streamlit UI
wrapping NLP library calls).  The Python sources under
src/pyfiles/pages/toolkit_nlp.py, src/pyfiles/pages/document_term_matrix.py
and src/utils/csp_downloaders.py are shallowly embedded below: pandas
dataframes become association lists of named columns, third-party library
calls become oracle function parameters (returning Except when the call may
raise a Python exception), and UI/file-system effects are recorded in
explicit lists.  Machine floats produced by the sentiment libraries are
modelled as rationals.
-/

namespace NewsApp

/-- A cell of a pandas dataframe column: the app stores either strings
(after astype(str)) or numeric scores in its columns. -/
inductive Cell where
  | str : String → Cell
  | num : Rat → Cell
  deriving DecidableEq, Repr

/-- A pandas dataframe, modelled as an ordered association list of named
columns (column names are unique in a pandas frame). -/
abbrev Frame : Type := List (String × List Cell)

/-- DATA[c]: read a column.  The embedded operations only read columns that
exist; a missing column yields [] here. -/
def getCol : Frame → String → List Cell
  | [], _ => []
  | p :: f, c => if p.1 = c then p.2 else getCol f c

/-- DATA[n] = vals: pandas column assignment replaces an existing column in
place and otherwise appends a new column at the end. -/
def setCol : Frame → String → List Cell → Frame
  | [], n, v => [(n, v)]
  | p :: f, n, v => if p.1 = n then (n, v) :: f else p :: setCol f n v

/-- DataFrame.empty: true when the frame has no columns or no rows. -/
def frameEmpty (f : Frame) : Bool :=
  f.isEmpty || f.all (fun c => c.2.isEmpty)

/-- View a string column as plain strings (the app runs astype(str) on the
loaded dataset, so data columns hold strings). -/
def cellString : Cell → String
  | Cell.str s => s
  | Cell.num q => toString q

/-- The string values of column c of the frame. -/
def getStrCol (f : Frame) (c : String) : List String :=
  (getCol f c).map cellString

-- ------------------------------------------------------------------ --
-- Sentiment analysis (toolkit_nlp.py lines 719-866)                  --
-- ------------------------------------------------------------------ --

/-- The record returned by SentimentIntensityAnalyzer().polarity_scores:
compound, pos, neu and neg fields (floats modelled as rationals). -/
structure VaderScores where
  compound : Rat
  pos : Rat
  neu : Rat
  neg : Rat
  deriving DecidableEq, Repr

/-- The for-loop of toolkit_nlp.py lines 736-747: for each document the
analyzer is called (an unguarded library call, hence Except), and the
compound score plus a label is appended under the three sign tests
(there is no final else in the source, hence the fall-through arm). -/
def vaderLoop (p : String → Except String VaderScores) :
    List String → Except String (List Rat × List String)
  | [] => Except.ok ([], [])
  | d :: ds =>
    match p d with
    | Except.error e => Except.error e
    | Except.ok s =>
      match vaderLoop p ds with
      | Except.error e => Except.error e
      | Except.ok (scores, labels) =>
        if s.compound > 0 then Except.ok (s.compound :: scores, "Positive" :: labels)
        else if s.compound = 0 then Except.ok (s.compound :: scores, "Neutral" :: labels)
        else if s.compound < 0 then Except.ok (s.compound :: scores, "Negative" :: labels)
        else Except.ok (scores, labels)

/-- One of the list comprehensions of toolkit_nlp.py lines 751-758: the
analyzer is called again on every document and one field is projected out. -/
def vaderFieldList (p : String → Except String VaderScores) (field : VaderScores → Rat) :
    List String → Except String (List Rat)
  | [] => Except.ok []
  | d :: ds =>
    match p d with
    | Except.error e => Except.error e
    | Except.ok s =>
      match vaderFieldList p field ds with
      | Except.error e => Except.error e
      | Except.ok rest => Except.ok (field s :: rest)

/-- The VADER branch of the sentiment operation (toolkit_nlp.py lines
721-758).  clean models the pandas regex replace built from the replacer
dict; p models SentimentIntensityAnalyzer().polarity_scores.  None of the
library calls in this branch sit inside a try/except in the source, so a
raised exception propagates (Except.error). -/
def vaderRun (clean : String → String) (p : String → Except String VaderScores)
    (frame : Frame) (col : String) : Except String Frame :=
  let vals := getStrCol frame col
  let cleaned := vals.map clean
  let f1 := setCol frame "VADER SENTIMENT TEXT" (cleaned.map Cell.str)
  match vaderLoop p cleaned with
  | Except.error e => Except.error e
  | Except.ok (scores, labels) =>
    let f2 := setCol f1 "VADER OVERALL SENTIMENT" (labels.map Cell.str)
    let f3 := setCol f2 "VADER OVERALL SCORE" (scores.map Cell.num)
    match vaderFieldList p VaderScores.pos cleaned with
    | Except.error e => Except.error e
    | Except.ok posList =>
      let f4 := setCol f3 "VADER POSITIVE SCORING" (posList.map Cell.num)
      match vaderFieldList p VaderScores.neu cleaned with
      | Except.error e => Except.error e
      | Except.ok neuList =>
        let f5 := setCol f4 "VADER NEUTRAL SCORING" (neuList.map Cell.num)
        match vaderFieldList p VaderScores.neg cleaned with
        | Except.error e => Except.error e
        | Except.ok negList =>
          Except.ok (setCol f5 "VADER NEGATIVE SCORING" (negList.map Cell.num))

/-- The label loop of toolkit_nlp.py lines 768-774 (polarity): three sign
tests with no else, mirrored by the fall-through arm. -/
def tbPolarityLabels : List Rat → List String
  | [] => []
  | i :: is =>
    if i > 0 then "Positive" :: tbPolarityLabels is
    else if i < 0 then "Negative" :: tbPolarityLabels is
    else if i = 0 then "Neutral" :: tbPolarityLabels is
    else tbPolarityLabels is

/-- The label loop of toolkit_nlp.py lines 781-787 (subjectivity). -/
def tbSubjectivityLabels : List Rat → List String
  | [] => []
  | i :: is =>
    if i < (1 : Rat) / 2 then "Objective" :: tbSubjectivityLabels is
    else if i > (1 : Rat) / 2 then "Subjective" :: tbSubjectivityLabels is
    else if i = (1 : Rat) / 2 then "Neutral" :: tbSubjectivityLabels is
    else tbSubjectivityLabels is

/-- Apply a possibly-raising library function to each value of a column
(pandas Series.apply propagates the first exception). -/
def applyCol (g : String → Except String Rat) : List String → Except String (List Rat)
  | [] => Except.ok []
  | d :: ds =>
    match g d with
    | Except.error e => Except.error e
    | Except.ok r =>
      match applyCol g ds with
      | Except.error e => Except.error e
      | Except.ok rest => Except.ok (r :: rest)

/-- The TextBlob branch of the sentiment operation (toolkit_nlp.py lines
760-790).  The whole block sits inside one try/except, so an exception
from either TextBlob call is caught and surfaced as a UI error message;
column assignments made before the raising call survive, matching the
in-place pandas mutation in the source.  Returns the frame together with
the list of UI error messages. -/
def textBlobRun (tbPol tbSub : String → Except String Rat)
    (frame : Frame) (col : String) : Frame × List String :=
  let vals := getStrCol frame col
  match applyCol tbPol vals with
  | Except.error e => (frame, ["Error: " ++ e])
  | Except.ok polScores =>
    let f1 := setCol frame "POLARITY SCORE" (polScores.map Cell.num)
    let f2 := setCol f1 "POLARITY SENTIMENT" ((tbPolarityLabels polScores).map Cell.str)
    match applyCol tbSub vals with
    | Except.error e => (f2, ["Error: " ++ e])
    | Except.ok subScores =>
      let f3 := setCol f2 "SUBJECTIVITY SCORE" (subScores.map Cell.num)
      (setCol f3 "SUBJECTIVITY SENTIMENT" ((tbSubjectivityLabels subScores).map Cell.str), [])

/-- The backend selected in the BACKEND_ANALYSER selectbox. -/
inductive Backend where
  | vader
  | textBlob
  deriving DecidableEq, Repr

/-- The result columns written by each sentiment backend. -/
def sentimentResultCols : Backend → List String
  | Backend.vader =>
      ["VADER SENTIMENT TEXT", "VADER OVERALL SENTIMENT", "VADER OVERALL SCORE",
       "VADER POSITIVE SCORING", "VADER NEUTRAL SCORING", "VADER NEGATIVE SCORING"]
  | Backend.textBlob =>
      ["POLARITY SCORE", "POLARITY SENTIMENT", "SUBJECTIVITY SCORE", "SUBJECTIVITY SENTIMENT"]

/-- The sentiment-analysis button handler (toolkit_nlp.py lines 719-866):
guard on the empty dataset, then dispatch on the backend.  The VADER
branch has no try/except, so its Except.error propagates out of the
operation; the TextBlob branch always returns normally. -/
def sentimentRun (backend : Backend) (clean : String → String)
    (p : String → Except String VaderScores) (tbPol tbSub : String → Except String Rat)
    (frame : Frame) (col : String) : Except String (Frame × List String) :=
  if frameEmpty frame then
    Except.ok (frame, ["Error: Data not loaded properly. Try again."])
  else
    match backend with
    | Backend.vader =>
      match vaderRun clean p frame col with
      | Except.error e => Except.error e
      | Except.ok f => Except.ok (f, [])
    | Backend.textBlob => Except.ok (textBlobRun tbPol tbSub frame col)

-- ------------------------------------------------------------------ --
-- Sentiment display guards (toolkit_nlp.py lines 793-842)            --
-- ------------------------------------------------------------------ --

/-- A Python value as used in the display-guard conditions: a string
literal or the boolean result of an "in" test. -/
inductive PyVal where
  | str : String → PyVal
  | bool : Bool → PyVal
  deriving DecidableEq, Repr

/-- Python truthiness: a string is truthy iff non-empty. -/
def pyTruthy : PyVal → Bool
  | PyVal.str s => !s.isEmpty
  | PyVal.bool b => b

/-- Python "a or b": returns a when a is truthy, else b. -/
def pyOr (a b : PyVal) : PyVal :=
  if pyTruthy a then a else b

/-- The guard of toolkit_nlp.py line 796.  Python parses the condition as
STRING_LITERAL or (STRING_LITERAL in DATA.columns). -/
def vaderDisplayGuard (cols : List String) : Bool :=
  pyTruthy (pyOr (PyVal.str "VADER OVERALL SENTIMENT")
                 (PyVal.bool (cols.contains "VADER OVERALL SCORE")))

/-- The guard of toolkit_nlp.py line 818, parsed the same way. -/
def textBlobDisplayGuard (cols : List String) : Bool :=
  pyTruthy (pyOr (PyVal.str "POLARITY SCORE")
                 (PyVal.bool (cols.contains "SUBJECTIVITY SCORE")))

/-- The warning emitted by the unreachable else branches at lines 815/842. -/
def processingWarning : String :=
  "Warning: An error is made in the processing of the data. Try again."

/-- The VADER display path (lines 794-815): either the dataframe/plot are
shown or the warning is emitted. -/
def vaderDisplayBranch (cols : List String) : List String :=
  if vaderDisplayGuard cols then ["Sentiment DataFrame", "VADER Score"]
  else [processingWarning]

/-- The TextBlob display path (lines 817-842). -/
def textBlobDisplayBranch (cols : List String) : List String :=
  if textBlobDisplayGuard cols then ["Sentiment DataFrame", "Polarity VS Subjectivity"]
  else [processingWarning]

-- ------------------------------------------------------------------ --
-- Document-Term Matrix creation (document_term_matrix.py 197-218)    --
-- ------------------------------------------------------------------ --

/-- Occurrence count of one term in a token list (what one entry of the
CountVectorizer output counts for one input string). -/
def countTok (t : String) (tokens : List String) : Nat :=
  (tokens.filter (fun w => w = t)).length

/-- The vocabulary CountVectorizer extracts from its input strings: the
distinct tokens that are not stop words.  Documents are modelled at the
token level (a document is its list of word tokens), so the vectorizer's
own tokenisation is already applied; get_feature_names returns this
vocabulary (sorted in the library; the order is irrelevant to the claims,
dedup order is used here). -/
def dtmVocab (stop : List String) (tokens : List String) : List String :=
  (tokens.filter (fun w => !stop.contains w)).dedup

/-- The body of the DTM page Proceed button (document_term_matrix.py lines
197-218): all documents are joined into the single string word_string, a
one-row dataframe is built from it, CountVectorizer.fit_transform runs on
that one-element series, and the result is wrapped into a dataframe with
index=[0].  Returns the matrix rows paired with the feature names. -/
def dtmProceed (stop : List String) (docs : List (List String)) :
    List (List Nat) × List String :=
  let wordString := docs.flatten
  let vocab := dtmVocab stop wordString
  ([vocab.map (fun t => countTok t wordString)], vocab)

/-- The whole Proceed handler including the empty-dataset guard at lines
198/277-278 (returns matrix rows, feature names, UI errors). -/
def dtmProceedRun (stop : List String) (docs : List (List String)) :
    List (List Nat) × List String × List String :=
  if docs.isEmpty then ([], [], ["Error: No files are loaded."])
  else ((dtmProceed stop docs).1, (dtmProceed stop docs).2, [])

-- ------------------------------------------------------------------ --
-- Run-button operations and their empty-dataset guards (C4)          --
-- ------------------------------------------------------------------ --

/-- What a run-button handler does to the outside world, for the purposes
of the dataset-guard invariant: the analysis/ML library calls it performs
(in order, named after the source call) and the UI error messages it
emits. -/
structure OpResult where
  libCalls : List String
  errors : List String
  deriving DecidableEq, Repr

/-- Word Cloud button (toolkit_nlp.py 192-214): guarded by DATA.empty with
an error message in the else branch. -/
def opWordCloudRun (docs : List String) : OpResult :=
  if !docs.isEmpty then
    { libCalls := ["WordCloud", "wc.generate"], errors := [] }
  else
    { libCalls := [], errors := ["Error: Data not loaded properly. Try again."] }

/-- NER button (toolkit_nlp.py 289-334): guarded, the spaCy pipeline runs
once per document. -/
def opNerRun (docs : List String) : OpResult :=
  if !docs.isEmpty then
    { libCalls := docs.map (fun _ => "NLP"), errors := [] }
  else
    { libCalls := [], errors := ["Error: Data not loaded properly. Try again."] }

/-- POS button (toolkit_nlp.py 410-459): guarded, spaCy runs per document. -/
def opPosRun (docs : List String) : OpResult :=
  if !docs.isEmpty then
    { libCalls := docs.map (fun _ => "NLP"), errors := [] }
  else
    { libCalls := [], errors := ["Error: Data not loaded properly. Try again."] }

/-- Basic summarise button (toolkit_nlp.py 544-576): guarded, the spaCy
summariser runs per document. -/
def opSummariseBasicRun (docs : List String) : OpResult :=
  if !docs.isEmpty then
    { libCalls := docs.map (fun _ => "summarise"), errors := [] }
  else
    { libCalls := [], errors := ["Error: Data not loaded properly. Try again."] }

/-- Advanced (T5) summarise button (toolkit_nlp.py 644-678): the tokenizer
and model are loaded BEFORE the empty-dataset test, and the test has no
else branch, so an empty dataset produces no error message. -/
def opSummariseT5Run (docs : List String) : OpResult :=
  { libCalls :=
      ["AutoTokenizer.from_pretrained", "AutoModelWithLMHead.from_pretrained"] ++
        (if !docs.isEmpty then
          docs.map (fun _ => "tokenizer.encode") ++ docs.map (fun _ => "model.generate")
        else []),
    errors := [] }

/-- Sentiment button (toolkit_nlp.py 719-866): guarded with an else error. -/
def opSentimentRun (docs : List String) : OpResult :=
  if !docs.isEmpty then
    { libCalls := ["SentimentIntensityAnalyzer"] ++ docs.map (fun _ => "polarity_scores"),
      errors := [] }
  else
    { libCalls := [], errors := ["Error: Data not loaded properly. Try again."] }

/-- Topic modelling button (toolkit_nlp.py 992-1229): guarded with an else
error at line 1229. -/
def opTopicModellingRun (docs : List String) : OpResult :=
  if !docs.isEmpty then
    { libCalls := ["CountVectorizer", "cv.fit_transform", "model.fit_transform"], errors := [] }
  else
    { libCalls := [], errors := ["Error: File not loaded properly. Try again."] }

/-- Topic classification button (toolkit_nlp.py 1295-1317): there is NO
empty-dataset guard; the zero-shot pipeline is constructed and applied
unconditionally and no error message is emitted. -/
def opTopicClassificationRun (docs : List String) : OpResult :=
  { libCalls := ["pipeline"] ++ docs.map (fun _ => "classify"), errors := [] }

/-- DTM page Proceed button (document_term_matrix.py 197-278): guarded with
an else error. -/
def opDtmProceedRun (docs : List String) : OpResult :=
  if !docs.isEmpty then
    { libCalls := ["CountVectorizer", "fit_transform"], errors := [] }
  else
    { libCalls := [], errors := ["Error: No files are loaded."] }

/-- The run-button operations of the two analysis pages. -/
inductive RunOp where
  | wordCloud
  | ner
  | pos
  | summariseBasic
  | summariseT5
  | sentiment
  | topicModelling
  | topicClassification
  | dtmProceed
  deriving DecidableEq, Repr

/-- Dispatch a run-button operation on the loaded dataset (the values of
the selected data column). -/
def runOp : RunOp → List String → OpResult
  | RunOp.wordCloud => opWordCloudRun
  | RunOp.ner => opNerRun
  | RunOp.pos => opPosRun
  | RunOp.summariseBasic => opSummariseBasicRun
  | RunOp.summariseT5 => opSummariseT5Run
  | RunOp.sentiment => opSentimentRun
  | RunOp.topicModelling => opTopicModellingRun
  | RunOp.topicClassification => opTopicClassificationRun
  | RunOp.dtmProceed => opDtmProceedRun

-- ------------------------------------------------------------------ --
-- Cloud storage downloaders (src/utils/csp_downloaders.py)           --
-- ------------------------------------------------------------------ --

/-- The error message every downloader emits when its parameters were not
validated. -/
def paramError : String :=
  "Error: Parameters are not loaded or is validated successfully. Try again."

/-- The parsed content of an AWS credential CSV file (columns
"Access key ID" and "Secret access key", row 0). -/
structure CredCsv where
  accessKeyId : String
  secretAccessKey : String
  deriving DecidableEq, Repr

/-- pd.read_csv applied to AWS_CREDENTIAL_FILE: pandas raises ValueError
when the argument is None (no file was uploaded), and returns the parsed
frame otherwise. -/
def pdReadCsv : Option CredCsv → Except String CredCsv
  | none => Except.error "Invalid file path or buffer object type: NoneType"
  | some c => Except.ok c

/-- The AWS form as submitted (csp_downloaders.py lines 57-80): the
checkbox, the optional uploaded credential file, and the five text
inputs (empty string when left blank; the two key fields stay empty
when the credential-file mode is selected). -/
structure AWSForm where
  fromCredentialFile : Bool
  credentialFile : Option CredCsv
  accessKeyId : String
  secretAccessKey : String
  bucketName : String
  objectKey : String
  fileName : String
  deriving DecidableEq, Repr

/-- The fields of an AWSDownloader after __init__ ran. -/
structure AWSState where
  accessKeyId : String
  secretAccessKey : String
  bucketName : String
  objectKey : String
  fileName : String
  successful : Bool
  messages : List String
  deriving DecidableEq, Repr

/-- The submit handler inside AWSDownloader.__init__ (csp_downloaders.py
lines 82-104), run when SUBMIT is pressed.  Note that the else branch
always calls pd.read_csv(self.AWS_CREDENTIAL_FILE), also when the user
chose direct credential entry (in which case that attribute is None). -/
def awsSubmit (form : AWSForm) : AWSState :=
  let base : AWSState :=
    { accessKeyId := form.accessKeyId, secretAccessKey := form.secretAccessKey,
      bucketName := form.bucketName, objectKey := form.objectKey,
      fileName := form.fileName, successful := false, messages := [] }
  if form.fromCredentialFile && form.credentialFile.isNone && form.bucketName.isEmpty &&
      form.objectKey.isEmpty && form.fileName.isEmpty then
    { base with successful := false, messages := [paramError] }
  else if !form.fromCredentialFile && form.credentialFile.isNone && form.bucketName.isEmpty &&
      form.objectKey.isEmpty && form.fileName.isEmpty then
    { base with successful := false, messages := [paramError] }
  else
    match pdReadCsv form.credentialFile with
    | Except.error e => { base with messages := ["Error: " ++ e] }
    | Except.ok c =>
      { base with
        accessKeyId := c.accessKeyId,
        secretAccessKey := c.secretAccessKey,
        successful := true,
        messages := ["Credentials Loaded!"] }

/-- An observable side effect of a downloader method: an SDK download call
(which also writes the local file on success), a directory creation, or a
local file write. -/
inductive Effect where
  | sdkCall : String → Effect
  | mkdir : String → Effect
  | fileWrite : String → Effect
  deriving DecidableEq, Repr

/-- The outcome of one downloader method: the possibly-updated object
state, the effects performed, and the UI messages shown. -/
structure MethodOut (σ : Type) where
  state : σ
  effects : List Effect
  messages : List String
  deriving DecidableEq, Repr

/-- A botocore ClientError carries a response error code. -/
structure AwsClientError where
  code : String
  deriving DecidableEq, Repr

/-- AWSDownloader.downloadFile (csp_downloaders.py lines 106-125): when
SUCCESSFUL, the S3 SDK download is attempted (sdk models
Bucket(...).download_file, which writes the local file on success and
raises a ClientError otherwise); when not SUCCESSFUL only the parameter
error is shown. -/
def awsDownloadFile (sdk : String → String → String → Except AwsClientError Unit)
    (s : AWSState) : MethodOut AWSState :=
  if s.successful then
    match sdk s.bucketName s.objectKey s.fileName with
    | Except.error e =>
      { state := s, effects := [Effect.sdkCall "Bucket.download_file"],
        messages :=
          if e.code = "401" then
            ["User Unauthorised. Ensure that your credentials are correct before submitting the form."]
          else if e.code = "403" then
            ["User Unauthorised. Ensure that your credentials permit you to view and download the requested file from the S3 bucket."]
          else if e.code = "404" then
            ["File does not exist."]
          else [] }
    | Except.ok _ =>
      { state := s, effects := [Effect.sdkCall "Bucket.download_file", Effect.fileWrite s.fileName],
        messages := ["File " ++ s.fileName ++ " Downloaded!"] }
  else
    { state := s, effects := [], messages := [paramError] }

/-- The fields of an AzureDownloader relevant to its download methods. -/
structure AzureState where
  localDownloadPath : String
  azureDownloadPath : String
  successful : Bool
  deriving DecidableEq, Repr

/-- os.path.join for the purposes of this model. -/
def pathJoin (a b : String) : String := a ++ "/" ++ b

/-- AzureDownloader.saveBlob (csp_downloaders.py lines 190-212): when
SUCCESSFUL, AZURE_DOWNLOAD_PATH is updated, the directory is created and
the blob content is written out; otherwise only the parameter error is
shown. -/
def azureSaveBlob (s : AzureState) (filename : String) : MethodOut AzureState :=
  if s.successful then
    let p := pathJoin s.localDownloadPath filename
    { state := { s with azureDownloadPath := p },
      effects := [Effect.mkdir p, Effect.fileWrite p], messages := [] }
  else
    { state := s, effects := [], messages := [paramError] }

/-- AzureDownloader.downloadBlob (csp_downloaders.py lines 214-230): when
SUCCESSFUL, every blob listed in the container is downloaded through the
SDK and saved via saveBlob; otherwise only the parameter error is shown.
blobs models ClientContainer.list_blobs(). -/
def azureDownloadBlob (blobs : List String) (s : AzureState) : MethodOut AzureState :=
  if s.successful then
    blobs.foldl
      (fun acc name =>
        let saved := azureSaveBlob acc.state name
        { state := saved.state,
          effects := acc.effects ++ [Effect.sdkCall "download_blob"] ++ saved.effects,
          messages := acc.messages ++ saved.messages ++ ["File Successfully downloaded!"] })
      { state := s, effects := [], messages := [] }
  else
    { state := s, effects := [], messages := [paramError] }

/-- The fields of a GoogleDownloader relevant to downloadBlob. -/
structure GoogleState where
  bucketName : String
  objectName : String
  destFileName : String
  successful : Bool
  deriving DecidableEq, Repr

/-- GoogleDownloader.downloadBlob (csp_downloaders.py lines 297-312): when
SUCCESSFUL, the GCS SDK download is attempted (on an exception SUCCESSFUL
is reset to False and the error shown); otherwise only the parameter
error is shown. -/
def googleDownloadBlob (sdk : String → String → String → Except String Unit)
    (s : GoogleState) : MethodOut GoogleState :=
  if s.successful then
    match sdk s.bucketName s.objectName s.destFileName with
    | Except.error e =>
      { state := { s with successful := false },
        effects := [Effect.sdkCall "download_to_filename"], messages := [e] }
    | Except.ok _ =>
      { state := s,
        effects := [Effect.sdkCall "download_to_filename", Effect.fileWrite s.destFileName],
        messages := ["File Downloaded!"] }
  else
    { state := s, effects := [], messages := [paramError] }

-- ------------------------------------------------------------------ --
-- Topic modelling and the random seed (toolkit_nlp.py 1008-1081)     --
-- ------------------------------------------------------------------ --

/-- The LDA branch (toolkit_nlp.py lines 1008-1013):
LatentDirichletAllocation is constructed WITHOUT a random_state argument,
so the fit uses whatever seed the process-global RNG supplies at run
time.  ldaLib models the library fit given a seed; rngState is the
ambient RNG state of the run. -/
def ldaButtonRun (ldaLib : Nat → List String → List (List Rat))
    (rngState : Nat) (docs : List String) : List (List Rat) :=
  ldaLib rngState docs

/-- The NMF branch (toolkit_nlp.py lines 1077-1081): NMF is constructed
with random_state=1, so the ambient RNG state is ignored. -/
def nmfButtonRun (nmfLib : Nat → List String → List (List Rat))
    (_rngState : Nat) (docs : List String) : List (List Rat) :=
  nmfLib 1 docs

/-- The LSI branch (toolkit_nlp.py lines 1125-1127): TruncatedSVD is also
constructed without a random_state argument. -/
def lsiButtonRun (lsiLib : Nat → List String → List (List Rat))
    (rngState : Nat) (docs : List String) : List (List Rat) :=
  lsiLib rngState docs

-- ------------------------------------------------------------------ --
-- Auxiliary definitions for the claims                               --
-- ------------------------------------------------------------------ --

/-- The label the VADER loop attaches to a compound score (read off the
three sign tests of toolkit_nlp.py lines 739-747). -/
def vaderLabelOf (c : Rat) : String :=
  if c > 0 then "Positive" else if c = 0 then "Neutral" else "Negative"

/-- An instance of the pandas regex replace built from the replacer dict of
toolkit_nlp.py lines 722-727 on inputs whose only non-word character is a
full stop: the rule mapping non-word characters to a space fires. -/
def dotToSpace (s : String) : String :=
  String.mk (s.data.map (fun ch => if ch = Char.ofNat 46 then Char.ofNat 32 else ch))

-- ------------------------------------------------------------------ --
-- Supporting lemmas                                                  --
-- ------------------------------------------------------------------ --

/-- Reading a column other than the one just assigned is unaffected. -/
theorem getCol_setCol_ne (f : Frame) (n c : String) (v : List Cell) (h : c ≠ n) :
    getCol (setCol f n v) c = getCol f c := by
  induction f with
  | nil => simp [setCol, getCol, Ne.symm h]
  | cons p f ih =>
    by_cases hp : p.1 = n
    · rw [setCol, if_pos hp]
      rw [getCol, getCol, if_neg (Ne.symm h), if_neg (fun hc => h (hc.symm.trans hp))]
    · rw [setCol, if_neg hp]
      by_cases hc : p.1 = c
      · rw [getCol, getCol, if_pos hc, if_pos hc]
      · rw [getCol, getCol, if_neg hc, if_neg hc, ih]

/-- Occurrences in a concatenation are the sum of occurrences in the
pieces. -/
theorem countTok_flatten (t : String) (docs : List (List String)) :
    countTok t docs.flatten = (docs.map (fun d => countTok t d)).sum := by
  induction docs with
  | nil => simp [countTok]
  | cons d ds ih =>
    simp only [List.flatten_cons, List.map_cons, List.sum_cons, countTok,
      List.filter_append, List.length_append] at *
    omega

/-- The label attached by the VADER loop characterises the sign of the
compound score. -/
theorem vaderLabelOf_spec (c : Rat) :
    (vaderLabelOf c = "Positive" ↔ 0 < c) ∧
    (vaderLabelOf c = "Neutral" ↔ c = 0) ∧
    (vaderLabelOf c = "Negative" ↔ c < 0) := by
  rcases lt_trichotomy c 0 with h | h | h
  · have h1 : ¬ c > 0 := lt_asymm h
    have h2 : c ≠ 0 := ne_of_lt h
    rw [vaderLabelOf, if_neg h1, if_neg h2]
    refine ⟨⟨fun hs => absurd hs (by decide), fun hc => absurd (lt_trans h hc) (lt_irrefl c)⟩,
      ⟨fun hs => absurd hs (by decide), fun hc => absurd hc h2⟩,
      ⟨fun _ => h, fun _ => rfl⟩⟩
  · subst h
    rw [vaderLabelOf, if_neg (lt_irrefl 0), if_pos rfl]
    exact ⟨⟨fun hs => absurd hs (by decide), fun hc => absurd hc (lt_irrefl 0)⟩,
      ⟨fun _ => rfl, fun _ => rfl⟩,
      ⟨fun hs => absurd hs (by decide), fun hc => absurd hc (lt_irrefl 0)⟩⟩
  · rw [vaderLabelOf, if_pos h]
    exact ⟨⟨fun _ => h, fun _ => rfl⟩,
      ⟨fun hs => absurd hs (by decide), fun hc => absurd (hc ▸ h) (lt_irrefl 0)⟩,
      ⟨fun hs => absurd hs (by decide), fun hc => absurd (lt_trans h hc) (lt_irrefl 0)⟩⟩

/-- Structure of a successful VADER loop run: one score and one label per
document, the score being the compound field of the analyzer result and
the label the sign label of that score. -/
theorem vaderLoop_spec (p : String → Except String VaderScores) :
    ∀ (docs : List String) (scores : List Rat) (labels : List String),
      vaderLoop p docs = Except.ok (scores, labels) →
      scores.length = docs.length ∧ labels = scores.map vaderLabelOf ∧
        List.Forall₂ (fun d c => ∃ v, p d = Except.ok v ∧ c = v.compound) docs scores
  | [], scores, labels, h => by
    rw [vaderLoop] at h
    obtain ⟨h1, h2⟩ : [] = scores ∧ ([] : List String) = labels := by simpa using h
    subst h1; subst h2
    exact ⟨rfl, rfl, List.Forall₂.nil⟩
  | d :: ds, scores, labels, h => by
    rw [vaderLoop] at h
    cases hp : p d with
    | error e => rw [hp] at h; exact absurd h (by simp)
    | ok s =>
      rw [hp] at h
      dsimp only at h
      cases hr : vaderLoop p ds with
      | error e => rw [hr] at h; exact absurd h (by simp)
      | ok pr =>
        obtain ⟨ss, ls⟩ := pr
        rw [hr] at h
        dsimp only at h
        obtain ⟨ihlen, ihlab, ihf⟩ := vaderLoop_spec p ds ss ls hr
        rcases lt_trichotomy s.compound 0 with hneg | hzero | hpos
        · rw [if_neg (lt_asymm hneg), if_neg (ne_of_lt hneg), if_pos hneg] at h
          obtain ⟨h1, h2⟩ : s.compound :: ss = scores ∧ "Negative" :: ls = labels := by
            simpa using h
          subst h1; subst h2
          refine ⟨by simp [ihlen], ?_, List.Forall₂.cons ⟨s, hp, rfl⟩ ihf⟩
          rw [List.map_cons, ← ihlab, vaderLabelOf,
            if_neg (lt_asymm hneg), if_neg (ne_of_lt hneg)]
        · rw [if_neg (by rw [hzero]; exact lt_irrefl 0), if_pos hzero] at h
          obtain ⟨h1, h2⟩ : s.compound :: ss = scores ∧ "Neutral" :: ls = labels := by
            simpa using h
          subst h1; subst h2
          refine ⟨by simp [ihlen], ?_, List.Forall₂.cons ⟨s, hp, rfl⟩ ihf⟩
          rw [List.map_cons, ← ihlab, vaderLabelOf,
            if_neg (by rw [hzero]; exact lt_irrefl 0), if_pos hzero]
        · rw [if_pos hpos] at h
          obtain ⟨h1, h2⟩ : s.compound :: ss = scores ∧ "Positive" :: ls = labels := by
            simpa using h
          subst h1; subst h2
          refine ⟨by simp [ihlen], ?_, List.Forall₂.cons ⟨s, hp, rfl⟩ ihf⟩
          rw [List.map_cons, ← ihlab, vaderLabelOf, if_pos hpos]

/-- A successful VADER branch run only reads the selected column and
assigns the six VADER result columns: any other column is preserved. -/
theorem getCol_vaderRun (clean : String → String) (p : String → Except String VaderScores)
    (frame : Frame) (col : String) (c : String) (f : Frame)
    (h : vaderRun clean p frame col = Except.ok f)
    (hc : c ∉ sentimentResultCols Backend.vader) :
    getCol f c = getCol frame c := by
  simp only [sentimentResultCols, List.mem_cons, List.not_mem_nil, or_false, not_or] at hc
  obtain ⟨hc1, hc2, hc3, hc4, hc5, hc6⟩ := hc
  unfold vaderRun at h
  dsimp only at h
  split at h
  · exact absurd h (by simp)
  · split at h
    · exact absurd h (by simp)
    · split at h
      · exact absurd h (by simp)
      · split at h
        · exact absurd h (by simp)
        · injection h with h2
          subst h2
          rw [getCol_setCol_ne _ _ _ _ hc6, getCol_setCol_ne _ _ _ _ hc5,
            getCol_setCol_ne _ _ _ _ hc4, getCol_setCol_ne _ _ _ _ hc3,
            getCol_setCol_ne _ _ _ _ hc2, getCol_setCol_ne _ _ _ _ hc1]

/-- The TextBlob branch only assigns its four result columns (also on a
partial failure): any other column is preserved. -/
theorem getCol_textBlobRun (tbPol tbSub : String → Except String Rat)
    (frame : Frame) (col : String) (c : String)
    (hc : c ∉ sentimentResultCols Backend.textBlob) :
    getCol (textBlobRun tbPol tbSub frame col).1 c = getCol frame c := by
  simp only [sentimentResultCols, List.mem_cons, List.not_mem_nil, or_false, not_or] at hc
  obtain ⟨hc1, hc2, hc3, hc4⟩ := hc
  unfold textBlobRun
  dsimp only
  split
  · rfl
  · split
    · dsimp only
      rw [getCol_setCol_ne _ _ _ _ hc2, getCol_setCol_ne _ _ _ _ hc1]
    · dsimp only
      rw [getCol_setCol_ne _ _ _ _ hc4, getCol_setCol_ne _ _ _ _ hc3,
        getCol_setCol_ne _ _ _ _ hc2, getCol_setCol_ne _ _ _ _ hc1]

-- ------------------------------------------------------------------ --
-- Claim theorems                                                     --
-- ------------------------------------------------------------------ --

/-- C1 (counterexample): the claim that the Proceed operation produces a
matrix with one row per document is false: on the two-document dataset
[[alpha], [beta]] the produced matrix has a single row. -/
theorem c1_counterexample :
    ¬ ∀ (stop : List String) (docs : List (List String)),
        ((dtmProceed stop docs).1).length = docs.length := by
  intro h
  exact absurd (h [] [["alpha"], ["beta"]]) (by decide)

/-- C1 (amended): the Proceed operation always produces exactly ONE row
(index=[0]), and the single row's entry for feature t is the number of
occurrences of t in the concatenation of all documents, i.e. the sum over
the documents of the per-document counts. -/
theorem c1_dtm_single_row (stop : List String) (docs : List (List String)) :
    ((dtmProceed stop docs).1).length = 1 ∧
    (dtmProceed stop docs).1 =
      [((dtmProceed stop docs).2).map (fun t => (docs.map (fun d => countTok t d)).sum)] := by
  refine ⟨rfl, ?_⟩
  unfold dtmProceed
  dsimp only
  simp only [countTok_flatten]

/-- C2 (counterexample): it is false that every library call is wrapped in
a try/except at its call site: in the VADER sentiment branch the analyzer
calls are unguarded, so an exception raised there propagates out of the
operation instead of being surfaced as a UI message (the embedded
operation returns Except.error rather than Except.ok). -/
theorem c2_counterexample :
    ¬ ∀ (backend : Backend) (clean : String → String)
        (p : String → Except String VaderScores) (tbPol tbSub : String → Except String Rat)
        (frame : Frame) (col : String),
        ∃ r, sentimentRun backend clean p tbPol tbSub frame col = Except.ok r := by
  intro h
  obtain ⟨r, hr⟩ := h Backend.vader id (fun _ => Except.error "boom")
    (fun _ => Except.ok 0) (fun _ => Except.ok 0) [("text", [Cell.str "doc"])] "text"
  have hr2 : Except.error "boom" = Except.ok r := hr
  exact Except.noConfusion hr2

/-- C2 (amended): the TextBlob sentiment branch IS wrapped in a single
try/except, so whatever the TextBlob library calls do, the operation
returns normally (surfacing any error as a UI message); the claim fails
only for the unwrapped calls such as the VADER branch. -/
theorem c2_textblob_caught (clean : String → String)
    (p : String → Except String VaderScores) (tbPol tbSub : String → Except String Rat)
    (frame : Frame) (col : String) :
    ∃ r, sentimentRun Backend.textBlob clean p tbPol tbSub frame col = Except.ok r := by
  unfold sentimentRun
  split
  · exact ⟨_, rfl⟩
  · exact ⟨_, rfl⟩

/-- The concrete AWS form of claim C3: direct credential entry (checkbox
unchecked, hence no credential file uploaded) with all five text fields
filled in. -/
def c3Form : AWSForm :=
  { fromCredentialFile := false, credentialFile := none,
    accessKeyId := "AKIAEXAMPLEKEY", secretAccessKey := "examplesecret",
    bucketName := "mybucket", objectKey := "data.csv", fileName := "file.csv" }

/-- C3: submitting the form with direct credentials and all parameters
filled does NOT set SUCCESSFUL: the submit handler unconditionally calls
pd.read_csv on the (None) credential file, which raises, so the error
message is shown, SUCCESSFUL stays False, and a subsequent downloadFile
call performs no download and only shows the parameter error.  This
contradicts the claim (and the documented intent of the class). -/
theorem c3_direct_credentials_bug :
    (awsSubmit c3Form).successful = false ∧
    (awsSubmit c3Form).messages =
      ["Error: Invalid file path or buffer object type: NoneType"] ∧
    ∀ sdk : String → String → String → Except AwsClientError Unit,
      awsDownloadFile sdk (awsSubmit c3Form) =
        { state := awsSubmit c3Form, effects := [], messages := [paramError] } := by
  refine ⟨by decide, by decide, fun sdk => ?_⟩
  have h : (awsSubmit c3Form).successful = false := by decide
  unfold awsDownloadFile
  rw [h]
  rfl

/-- C4 (counterexample): it is false that every run-button operation
reports an error and performs no library call on an empty dataset: the
Topic Classification button has no empty-dataset guard at all, so on an
empty dataset it still constructs the zero-shot pipeline (a library call)
and emits no error message. -/
theorem c4_counterexample :
    ¬ ∀ (o : RunOp) (docs : List String), docs = [] →
        (runOp o docs).libCalls = [] ∧ (runOp o docs).errors ≠ [] := by
  intro h
  exact absurd (h RunOp.topicClassification [] rfl).1 (by decide)

/-- C4 (amended): every run-button operation EXCEPT Topic Classification
(no guard) and the advanced T5 summariser (models loaded before the
guard, no error branch) maintains the invariant: on an empty dataset it
performs no library call and reports an error to the user. -/
theorem c4_guarded_ops (o : RunOp) (docs : List String)
    (h1 : o ≠ RunOp.topicClassification) (h2 : o ≠ RunOp.summariseT5)
    (hd : docs = []) :
    (runOp o docs).libCalls = [] ∧ (runOp o docs).errors ≠ [] := by
  subst hd
  cases o
  case topicClassification => exact absurd rfl h1
  case summariseT5 => exact absurd rfl h2
  all_goals exact ⟨by decide, by decide⟩

/-- C4 witness: the word-cloud operation on the empty dataset. -/
theorem c4_guarded_ops_witness :
    (runOp RunOp.wordCloud []).libCalls = [] ∧ (runOp RunOp.wordCloud []).errors ≠ [] :=
  c4_guarded_ops RunOp.wordCloud [] (by decide) (by decide) rfl

/-- C5 (counterexample): it is false that every analysis operation is
two-run deterministic: the LDA branch constructs the model without a
random_state, so its output depends on the ambient RNG state of the run;
with a library fit that depends on its seed, two runs on the same input
under different RNG states differ. -/
theorem c5_counterexample :
    ¬ ∀ (ldaLib : Nat → List String → List (List Rat)) (s1 s2 : Nat) (docs : List String),
        ldaButtonRun ldaLib s1 docs = ldaButtonRun ldaLib s2 docs := by
  intro h
  exact absurd (h (fun s _ => [[(s : Rat)]]) 0 1 []) (by decide)

/-- C5 (amended): the NMF branch pins random_state to 1, so its output is
independent of the ambient RNG state: two runs on the same input agree
whatever RNG states the runs happen to be in. -/
theorem c5_nmf_deterministic (nmfLib : Nat → List String → List (List Rat))
    (s1 s2 : Nat) (docs : List String) :
    nmfButtonRun nmfLib s1 docs = nmfButtonRun nmfLib s2 docs := rfl

/-- C6 (counterexample): it is false that the selected data column is
always unchanged: when the selected column is itself named like a result
column (here VADER SENTIMENT TEXT), the operation overwrites it with the
cleaned text (the full stop in a.b is replaced by a space). -/
theorem c6_counterexample :
    ¬ ∀ (backend : Backend) (clean : String → String)
        (p : String → Except String VaderScores) (tbPol tbSub : String → Except String Rat)
        (frame : Frame) (col : String) (f : Frame) (msgs : List String),
        frameEmpty frame = false →
        sentimentRun backend clean p tbPol tbSub frame col = Except.ok (f, msgs) →
        getCol f col = getCol frame col := by
  intro h
  have hc := h Backend.vader dotToSpace (fun _ => Except.ok ⟨1, 1, 0, 0⟩)
    (fun _ => Except.ok 0) (fun _ => Except.ok 0)
    [("VADER SENTIMENT TEXT", [Cell.str "a.b"])] "VADER SENTIMENT TEXT"
    [("VADER SENTIMENT TEXT", [Cell.str "a b"]),
     ("VADER OVERALL SENTIMENT", [Cell.str "Positive"]),
     ("VADER OVERALL SCORE", [Cell.num 1]),
     ("VADER POSITIVE SCORING", [Cell.num 1]),
     ("VADER NEUTRAL SCORING", [Cell.num 0]),
     ("VADER NEGATIVE SCORING", [Cell.num 0])] []
    (by decide) (by rfl)
  exact absurd hc (by decide)

/-- C6 (amended): a sentiment run on a non-empty dataset only assigns its
backend's result columns, so the user-selected data column is unchanged
PROVIDED it is not itself named as one of those result columns. -/
theorem c6_column_preserved (backend : Backend) (clean : String → String)
    (p : String → Except String VaderScores) (tbPol tbSub : String → Except String Rat)
    (frame : Frame) (col : String) (f : Frame) (msgs : List String)
    (_hne : frameEmpty frame = false)
    (hrun : sentimentRun backend clean p tbPol tbSub frame col = Except.ok (f, msgs))
    (hcol : col ∉ sentimentResultCols backend) :
    getCol f col = getCol frame col := by
  unfold sentimentRun at hrun
  rw [_hne, if_neg (by simp)] at hrun
  cases backend
  case vader =>
    dsimp only at hrun
    cases hv : vaderRun clean p frame col with
    | error e =>
      rw [hv] at hrun
      exact absurd hrun (by simp)
    | ok f2 =>
      rw [hv] at hrun
      obtain ⟨h1, h2⟩ : f2 = f ∧ ([] : List String) = msgs := by simpa using hrun
      subst h1
      exact getCol_vaderRun clean p frame col col f2 hv hcol
  case textBlob =>
    dsimp only at hrun
    obtain ⟨h1, h2⟩ : (textBlobRun tbPol tbSub frame col).1 = f ∧
        (textBlobRun tbPol tbSub frame col).2 = msgs := by
      constructor
      · exact congrArg Prod.fst (by simpa using hrun)
      · exact congrArg Prod.snd (by simpa using hrun)
    subst h1
    exact getCol_textBlobRun tbPol tbSub frame col col hcol

/-- C6 witness: a VADER run on a one-document dataset whose selected
column (not a result column) is preserved. -/
theorem c6_column_preserved_witness :
    getCol [("text", [Cell.str "a.b"]),
      ("VADER SENTIMENT TEXT", [Cell.str "a b"]),
      ("VADER OVERALL SENTIMENT", [Cell.str "Positive"]),
      ("VADER OVERALL SCORE", [Cell.num 1]),
      ("VADER POSITIVE SCORING", [Cell.num 1]),
      ("VADER NEUTRAL SCORING", [Cell.num 0]),
      ("VADER NEGATIVE SCORING", [Cell.num 0])] "text" =
    getCol [("text", [Cell.str "a.b"])] "text" :=
  c6_column_preserved Backend.vader dotToSpace (fun _ => Except.ok ⟨1, 1, 0, 0⟩)
    (fun _ => Except.ok 1) (fun _ => Except.ok 0)
    [("text", [Cell.str "a.b"])] "text"
    [("text", [Cell.str "a.b"]),
     ("VADER SENTIMENT TEXT", [Cell.str "a b"]),
     ("VADER OVERALL SENTIMENT", [Cell.str "Positive"]),
     ("VADER OVERALL SCORE", [Cell.num 1]),
     ("VADER POSITIVE SCORING", [Cell.num 1]),
     ("VADER NEUTRAL SCORING", [Cell.num 0]),
     ("VADER NEGATIVE SCORING", [Cell.num 0])] []
    (by decide) (by rfl) (by decide)

/-- C8: whenever the SUCCESSFUL flag is False, each downloader method
(AWS downloadFile, Azure saveBlob, Azure downloadBlob, Google
downloadBlob) performs no SDK call and writes no file; its state is
unchanged and its only effect is the parameter error message. -/
theorem c8_downloaders_noop_on_failure
    (sdkA : String → String → String → Except AwsClientError Unit)
    (blobs : List String) (fn : String)
    (sdkG : String → String → String → Except String Unit)
    (sa : AWSState) (sz : AzureState) (sg : GoogleState)
    (ha : sa.successful = false) (hz : sz.successful = false)
    (hg : sg.successful = false) :
    awsDownloadFile sdkA sa = { state := sa, effects := [], messages := [paramError] } ∧
    azureSaveBlob sz fn = { state := sz, effects := [], messages := [paramError] } ∧
    azureDownloadBlob blobs sz = { state := sz, effects := [], messages := [paramError] } ∧
    googleDownloadBlob sdkG sg = { state := sg, effects := [], messages := [paramError] } := by
  refine ⟨?_, ?_, ?_, ?_⟩
  · unfold awsDownloadFile; rw [ha]; rfl
  · unfold azureSaveBlob; rw [hz]; rfl
  · unfold azureDownloadBlob; rw [hz]; rfl
  · unfold googleDownloadBlob; rw [hg]; rfl

/-- An AWS downloader state whose parameters were never validated. -/
def awsFailedState : AWSState :=
  { accessKeyId := "", secretAccessKey := "", bucketName := "", objectKey := "",
    fileName := "", successful := false, messages := [] }

/-- An Azure downloader state whose parameters were never validated. -/
def azureFailedState : AzureState :=
  { localDownloadPath := "", azureDownloadPath := "", successful := false }

/-- A Google downloader state whose parameters were never validated. -/
def googleFailedState : GoogleState :=
  { bucketName := "", objectName := "", destFileName := "", successful := false }

/-- C8 witness: concrete failed states for the three downloaders. -/
theorem c8_downloaders_noop_on_failure_witness :
    awsDownloadFile (fun _ _ _ => Except.ok ()) awsFailedState =
      { state := awsFailedState, effects := [], messages := [paramError] } :=
  (c8_downloaders_noop_on_failure (fun _ _ _ => Except.ok ()) [] "f.csv"
    (fun _ _ _ => Except.ok ())
    awsFailedState azureFailedState googleFailedState rfl rfl rfl).1

/-- C9: the display guards of both sentiment branches test the truthiness
of a non-empty string literal, so they are true for every column set and
the else branch with the processing warning is unreachable. -/
theorem c9_display_guard_always_true (cols : List String) :
    vaderDisplayGuard cols = true ∧ textBlobDisplayGuard cols = true ∧
    vaderDisplayBranch cols = ["Sentiment DataFrame", "VADER Score"] ∧
    textBlobDisplayBranch cols = ["Sentiment DataFrame", "Polarity VS Subjectivity"] ∧
    processingWarning ∉ vaderDisplayBranch cols ∧
    processingWarning ∉ textBlobDisplayBranch cols := by
  have hv : vaderDisplayGuard cols = true := by
    unfold vaderDisplayGuard pyOr
    rw [if_pos (by decide)]
    decide
  have ht : textBlobDisplayGuard cols = true := by
    unfold textBlobDisplayGuard pyOr
    rw [if_pos (by decide)]
    decide
  have hvb : vaderDisplayBranch cols = ["Sentiment DataFrame", "VADER Score"] := by
    unfold vaderDisplayBranch
    rw [hv]
    rfl
  have htb : textBlobDisplayBranch cols = ["Sentiment DataFrame", "Polarity VS Subjectivity"] := by
    unfold textBlobDisplayBranch
    rw [ht]
    rfl
  exact ⟨hv, ht, hvb, htb, by rw [hvb]; decide, by rw [htb]; decide⟩

/-- C10: a successful VADER sentiment loop appends exactly one score and
one label per document (the three sign cases on the compound score are
exhaustive over the rationals), the score is the compound score of the
analyzer output for that document, and the label is Positive iff the
compound score is positive, Neutral iff it is zero, Negative iff it is
negative. -/
theorem c10_vader_scores_labels (p : String → Except String VaderScores)
    (docs : List String) (scores : List Rat) (labels : List String)
    (h : vaderLoop p docs = Except.ok (scores, labels)) :
    scores.length = docs.length ∧ labels.length = docs.length ∧
    List.Forall₂ (fun d c => ∃ v, p d = Except.ok v ∧ c = v.compound) docs scores ∧
    labels = scores.map vaderLabelOf ∧
    ∀ c : Rat, (vaderLabelOf c = "Positive" ↔ 0 < c) ∧
      (vaderLabelOf c = "Neutral" ↔ c = 0) ∧ (vaderLabelOf c = "Negative" ↔ c < 0) := by
  obtain ⟨h1, h2, h3⟩ := vaderLoop_spec p docs scores labels h
  exact ⟨h1, by rw [h2, List.length_map, h1], h3, h2, vaderLabelOf_spec⟩

/-- C10 witness: one positive document. -/
theorem c10_vader_scores_labels_witness :
    ([(1 : Rat)]).length = (["good"]).length :=
  (c10_vader_scores_labels (fun _ => Except.ok ⟨1, 1, 0, 0⟩)
    ["good"] [1] ["Positive"] (by rfl)).1

end NewsApp
